import Mathlib

/-!
Verification of the mem0 MCP server's core logic (`src/mem0_mcp_server/server.py`):
scope resolution from nested filter expressions (`_extract_user_id` /
`_extract_id_value`), result normalization (`_mem0_call`), pagination emulation
(`get_memories`), and scope validation for the tools `add_memory`,
`delete_all_memories` and `delete_entities`.

Modelling conventions:
* Python JSON-like data is the inductive `JValue`; Python dicts are association
  lists in insertion order with unique keys, `dict.get` is `jget`, item
  assignment is `setKey`.
* Python truthiness of optional strings / ints is `strOptTruthy` / `intOptTruthy`
  (absent, empty string and zero are falsy).
* `json.dumps(..., ensure_ascii=False)` is `jdump` (default separators, literal
  non-ASCII); `json.loads (jdump v) = v` is used as a modelling identity, so the
  pagination post-processing operates on the envelope value directly.
* The Mem0 backend is an external collaborator: a call either returns a `JValue`
  or signals a `MemErr` (the `MemoryError` of the source), i.e. `Except MemErr JValue`.
-/

/-- JSON-like values exchanged with the Mem0 backend: scalars, lists, and
string-keyed mappings (insertion order preserved). -/
inductive JValue where
  | null
  | bool (b : Bool)
  | int (n : Int)
  | str (s : String)
  | arr (xs : List JValue)
  | obj (fields : List (String × JValue))

/-- Python `dict.get k`: value of the first binding of key `k`. -/
def jget (k : String) : List (String × JValue) → Option JValue
  | [] => none
  | (k', v) :: fs => if k' = k then some v else jget k fs

/-- Python `d[k] = v` on a dict: replace the binding in place if the key is
present, append it otherwise. -/
def setKey (fs : List (String × JValue)) (k : String) (v : JValue) :
    List (String × JValue) :=
  match fs with
  | [] => [(k, v)]
  | (k', v') :: t => if k' = k then (k, v) :: t else (k', v') :: setKey t k v

/-- Python truthiness of an `Optional[str]`: `None` and `""` are falsy. -/
def strOptTruthy : Option String → Bool
  | none => false
  | some s => !(s == "")

/-- Python truthiness of an `Optional[int]`: `None` and `0` are falsy. -/
def intOptTruthy : Option Int → Bool
  | none => false
  | some n => !(n == 0)

mutual

/-- Size of a value; termination measure for the queue traversal. -/
def jsize : JValue → Nat
  | .null => 1
  | .bool _ => 1
  | .int _ => 1
  | .str _ => 1
  | .arr xs => 1 + jsizeL xs
  | .obj fs => 1 + jsizeF fs

/-- Total size of a list of values. -/
def jsizeL : List JValue → Nat
  | [] => 0
  | x :: xs => jsize x + jsizeL xs

/-- Total size of the values of an association list. -/
def jsizeF : List (String × JValue) → Nat
  | [] => 0
  | (_, v) :: fs => jsize v + jsizeF fs

end

theorem jsize_pos : ∀ v, 1 ≤ jsize v := by
  intro v
  cases v <;> simp [jsize]

theorem jsizeL_append : ∀ a b : List JValue, jsizeL (a ++ b) = jsizeL a + jsizeL b := by
  intro a b
  induction a with
  | nil => simp [jsizeL]
  | cons x xs ih => simp [jsizeL, ih]; omega

theorem jsizeL_map_snd : ∀ fs : List (String × JValue), jsizeL (fs.map Prod.snd) = jsizeF fs := by
  intro fs
  induction fs with
  | nil => simp [jsizeL, jsizeF]
  | cons p t ih => simp [jsizeL, jsizeF, ih]

/-- `str(x)` for the Python scalars accepted by `_extract_id_value`'s
`isinstance(value, (str, int, float))` checks. Python `bool` is a subclass of
`int`, so booleans pass the check and stringify as `True`/`False`. (Floats are
outside the model.) -/
def scalarStr : JValue → Option String
  | .str s => some s
  | .int n => some (toString n)
  | .bool b => some (if b then "True" else "False")
  | _ => none

/-- `_extract_id_value` (server.py:63-79): a scalar extracts as its string
form; a mapping extracts `str` of its `eq` value if that is a scalar, else
`str` of the first element of its `in` list if that is a non-empty list with
a scalar head; anything else yields no extraction. -/
def extract_id_value (value : JValue) : Option String :=
  match scalarStr value with
  | some s => some s
  | none =>
    match value with
    | .obj fs =>
      match (jget "eq" fs).bind scalarStr with
      | some s => some s
      | none =>
        match jget "in" fs with
        | some (.arr (first :: _)) => scalarStr first
        | _ => none
    | _ => none

/-- The queue loop of `_extract_user_id` (server.py:86-98): breadth-first
work-list traversal.  A dequeued mapping that contains key `user_id` and whose
extraction is truthy (non-empty) is returned at once; otherwise the mapping's
values (resp. a list's elements) are appended to the queue. -/
def bfs : List JValue → Option String
  | [] => none
  | JValue.obj fs :: rest =>
    match jget "user_id" fs with
    | some v =>
      match extract_id_value v with
      | some s => if s = "" then bfs (rest ++ fs.map Prod.snd) else some s
      | none => bfs (rest ++ fs.map Prod.snd)
    | none => bfs (rest ++ fs.map Prod.snd)
  | JValue.arr xs :: rest => bfs (rest ++ xs)
  | JValue.null :: rest => bfs rest
  | JValue.bool _ :: rest => bfs rest
  | JValue.int _ :: rest => bfs rest
  | JValue.str _ :: rest => bfs rest
termination_by Q => jsizeL Q
decreasing_by
  all_goals simp [jsizeL, jsizeL_append, jsizeL_map_snd, jsize]
  all_goals omega

/-- `_extract_user_id` (server.py:82-98): `if not filters` (absent or empty
dict) returns the default; otherwise run the queue traversal seeded with the
filters dict, falling back to the default when the queue is exhausted. -/
def extract_user_id (filters : Option (List (String × JValue)))
    (default_user_id : String) : String :=
  match filters with
  | none => default_user_id
  | some [] => default_user_id
  | some fs => (bfs [JValue.obj fs]).getD default_user_id

/-- All extraction attempts the traversal performs, in visit order: one entry
per reachable mapping that contains key `user_id`, holding that mapping's
`_extract_id_value` result.  Same queue discipline as `bfs`, but never stops
early, so it enumerates every `user_id` leaf of the expression. -/
def allMatches : List JValue → List (Option String)
  | [] => []
  | JValue.obj fs :: rest =>
    (match jget "user_id" fs with
     | some v => [extract_id_value v]
     | none => []) ++ allMatches (rest ++ fs.map Prod.snd)
  | JValue.arr xs :: rest => allMatches (rest ++ xs)
  | JValue.null :: rest => allMatches rest
  | JValue.bool _ :: rest => allMatches rest
  | JValue.int _ :: rest => allMatches rest
  | JValue.str _ :: rest => allMatches rest
termination_by Q => jsizeL Q
decreasing_by
  all_goals simp [jsizeL, jsizeL_append, jsizeL_map_snd, jsize]
  all_goals omega

/-- First truthy extraction in a list of attempts (failures and empty strings
are skipped). -/
def firstGood : List (Option String) → Option String
  | [] => none
  | some s :: t => if s = "" then firstGood t else some s
  | none :: t => firstGood t

/-- The truthy extractions of a list of attempts, in order. -/
def goods : List (Option String) → List String
  | [] => []
  | some s :: t => if s = "" then goods t else s :: goods t
  | none :: t => goods t

theorem firstGood_eq_goods_head : ∀ l, firstGood l = (goods l).head? := by
  intro l
  induction l with
  | nil => rfl
  | cons o t ih =>
    cases o with
    | none => simpa [firstGood, goods] using ih
    | some s =>
      by_cases h : s = "" <;> simp [firstGood, goods, h, ih]

/-- The queue traversal returns exactly the first truthy extraction attempt. -/
theorem bfs_eq_firstGood : ∀ Q, bfs Q = firstGood (allMatches Q) := by
  intro Q
  induction Q using bfs.induct
  all_goals simp_all [bfs, allMatches, firstGood]

theorem extract_user_id_of_goods_nil (fs : List (String × JValue)) (d : String)
    (h : goods (allMatches [JValue.obj fs]) = []) :
    extract_user_id (some fs) d = d := by
  cases fs with
  | nil => rfl
  | cons p t =>
    simp only [extract_user_id]
    rw [bfs_eq_firstGood, firstGood_eq_goods_head, h]
    rfl

theorem extract_user_id_of_goods_single (fs : List (String × JValue)) (d s : String)
    (h : goods (allMatches [JValue.obj fs]) = [s]) :
    extract_user_id (some fs) d = s := by
  cases fs with
  | nil =>
    simp [allMatches, jget, goods] at h
  | cons p t =>
    simp only [extract_user_id]
    rw [bfs_eq_firstGood, firstGood_eq_goods_head, h]
    rfl

/-- Lowercase hex digit, as used by Python's JSON encoder. -/
def hexDigit (n : Nat) : Char :=
  if n < 10 then Char.ofNat (48 + n) else Char.ofNat (87 + n)

/-- Four-digit lowercase hex, for control-character escapes. -/
def hex4 (n : Nat) : String :=
  String.mk [hexDigit (n / 4096 % 16), hexDigit (n / 256 % 16),
    hexDigit (n / 16 % 16), hexDigit (n % 16)]

/-- One character of `json.dumps(..., ensure_ascii=False)` output: quote,
backslash and control characters are escaped, everything else (including all
non-ASCII characters) is emitted literally. -/
def escapeChar (c : Char) : String :=
  if c = '"' then "\\\""
  else if c = '\\' then "\\\\"
  else if c = '\n' then "\\n"
  else if c = '\t' then "\\t"
  else if c = '\r' then "\\r"
  else if c.toNat = 8 then "\\b"
  else if c.toNat = 12 then "\\f"
  else if c.toNat < 32 then "\\u" ++ hex4 c.toNat
  else String.singleton c

/-- A JSON string literal: quoted, characters escaped by `escapeChar`. -/
def jstring (s : String) : String :=
  "\"" ++ String.join (s.data.map escapeChar) ++ "\""

mutual

/-- `json.dumps(v, ensure_ascii=False)` with the default separators
`", "` and `": "`. -/
def jdump : JValue → String
  | .null => "null"
  | .bool b => if b then "true" else "false"
  | .int n => toString n
  | .str s => jstring s
  | .arr xs => "[" ++ jdumpL xs ++ "]"
  | .obj fs => "\x7b" ++ jdumpF fs ++ "\x7d"

/-- Serialized array elements joined by `", "`. -/
def jdumpL : List JValue → String
  | [] => ""
  | [x] => jdump x
  | x :: y :: t => jdump x ++ ", " ++ jdumpL (y :: t)

/-- Serialized object entries `"key": value` joined by `", "`. -/
def jdumpF : List (String × JValue) → String
  | [] => ""
  | [(k, v)] => jstring k ++ ": " ++ jdump v
  | (k, v) :: p :: t => jstring k ++ ": " ++ jdump v ++ ", " ++ jdumpF (p :: t)

end

/-- A backend-signaled error: the `MemoryError` caught by `_mem0_call`, with
its message and the `status` / `payload` attributes read by `getattr`
(absent attributes read as `None`). -/
structure MemErr where
  message : String
  status : Option JValue
  payload : Option JValue

/-- Python `None` becomes JSON `null`; a present value is kept. -/
def optJ : Option JValue → JValue
  | some v => v
  | none => .null

/-- Success normalization of `_mem0_call` (server.py:115-116): a list result
is wrapped as an object with field `results`; anything else passes through. -/
def wrapResult : JValue → JValue
  | .arr xs => .obj [("results", .arr xs)]
  | v => v

/-- Error envelope built by `_mem0_call`'s `except MemoryError` handler
(server.py:107-114). -/
def errEnvelope (e : MemErr) : JValue :=
  .obj [("error", .str e.message), ("status", optJ e.status), ("payload", optJ e.payload)]

/-- The envelope value `_mem0_call` serializes: the wrapped success result, or
the structured error envelope when the backend signalled an error. -/
def normalizeEnvelope : Except MemErr JValue → JValue
  | .ok r => wrapResult r
  | .error e => errEnvelope e

/-- `_mem0_call` (server.py:101-117): run the backend call; on `MemoryError`
return the serialized error envelope instead of raising; on success serialize
the (list-wrapped) result with `ensure_ascii=False`. -/
def mem0_call (call : Except MemErr JValue) : String :=
  jdump (normalizeEnvelope call)

/-- Outcome of a deletion tool: either an in-band structured error returned
without contacting the backend, or a backend `delete_all` call with the
assembled keyword payload. -/
inductive ToolReply where
  | reject (body : String)
  | call (payload : List (String × JValue))

/-- Whether the backend was contacted. -/
def isCall : ToolReply → Bool
  | .call _ => true
  | .reject _ => false

/-- Whether the tool returned an in-band error without contacting the backend. -/
def isReject : ToolReply → Bool
  | .reject _ => true
  | .call _ => false

/-- A key of the payload sent to the backend (none when no call was made or
the key is absent). -/
def replyPayloadKey : ToolReply → String → Option JValue
  | .call p, k => jget k p
  | .reject _, _ => none

/-- `model_dump(exclude_none=True)` over string-valued fields: `None` entries
are elided, present values (including the empty string) are kept. -/
def elideStr : List (String × Option String) → List (String × JValue)
  | [] => []
  | (k, some v) :: t => (k, JValue.str v) :: elideStr t
  | (_, none) :: t => elideStr t

/-- Serialized `scope_missing` error envelope of `delete_entities`
(server.py:518-524). -/
def scope_missing_body : String :=
  jdump (JValue.obj [("error", JValue.str "scope_missing"),
    ("detail", JValue.str "Provide user_id, agent_id, app_id, or run_id before calling delete_entities.")])

/-- Serialized `unsupported_scope` error envelope of `delete_entities`
(server.py:526-532). -/
def unsupported_scope_body : String :=
  jdump (JValue.obj [("error", JValue.str "unsupported_scope"),
    ("detail", JValue.str "app_id scope is not available in self-hosted mode")])

/-- `delete_entities` (server.py:493-540): reject when no scope argument is
truthy (`any([...])` uses Python truthiness, so empty strings do not count);
then reject any non-`None` `app_id`; otherwise call the backend's
`delete_all` with the non-`None` scopes. -/
def delete_entities (user_id agent_id app_id run_id : Option String) : ToolReply :=
  if !(strOptTruthy user_id || strOptTruthy agent_id ||
       strOptTruthy app_id || strOptTruthy run_id) then
    ToolReply.reject scope_missing_body
  else if app_id.isSome then
    ToolReply.reject unsupported_scope_body
  else
    ToolReply.call (elideStr [("user_id", user_id), ("agent_id", agent_id), ("run_id", run_id)])

/-- `delete_all_memories` (server.py:413-441): `user_id or default_user`
fills the user scope, `app_id` is silently popped from the payload, and the
backend's `delete_all` is always called. -/
def delete_all_memories (default_user : String)
    (user_id agent_id app_id run_id : Option String) : ToolReply :=
  ToolReply.call (elideStr
    [("user_id", some (if strOptTruthy user_id then user_id.getD "" else default_user)),
     ("agent_id", agent_id), ("run_id", run_id)])

/-- A structured conversation turn (`ToolMessage` of the schemas module):
a `role`/`content` pair. -/
structure ToolMessage where
  role : String
  content : String

/-- `model_dump` of a list of `ToolMessage`s: the conversation forwarded to
the backend's `add`. -/
def convOfMessages (l : List ToolMessage) : JValue :=
  JValue.arr (l.map fun m => JValue.obj [("role", JValue.str m.role), ("content", JValue.str m.content)])

/-- Serialized `messages_missing` error envelope of `add_memory`
(server.py:268-274). -/
def messages_missing_body : String :=
  jdump (JValue.obj [("error", JValue.str "messages_missing"),
    ("detail", JValue.str "Provide either `text` or `messages` so Mem0 knows what to store.")])

/-- Outcome of `add_memory`: an in-band error, or a backend `add` call with
the conversation and the remaining keyword payload. -/
inductive AddReply where
  | reject (body : String)
  | call (conversation : JValue) (payload : List (String × JValue))

/-- Whether `add_memory` contacted the backend. -/
def addIsCall : AddReply → Bool
  | .call _ _ => true
  | .reject _ => false

/-- The conversation forwarded to the backend's `add` (none when rejected). -/
def addConv : AddReply → Option JValue
  | .call c _ => some c
  | .reject _ => none

/-- A key of the keyword payload forwarded to the backend's `add`. -/
def addReplyKey : AddReply → String → Option JValue
  | .call _ p, k => jget k p
  | .reject _, _ => none

/-- The keyword payload of `add_memory` after `model_dump(exclude_none=True)`
and the pops of `enable_graph`, `app_id`, `messages` and `text`
(server.py:259-276): the scope fields that are not `None`, then `metadata`
when present. -/
def addPayload (uid agent_id run_id : Option String) (metadata : Option JValue) :
    List (String × JValue) :=
  elideStr [("user_id", uid), ("agent_id", agent_id), ("run_id", run_id)] ++
    (match metadata with
     | some m => [("metadata", m)]
     | none => [])

/-- `add_memory` (server.py:205-279).  `user_id` defaults to the resolved
default owner only when `user_id` is falsy and neither `agent_id` nor
`run_id` is truthy (server.py:252).  A truthy `messages` list becomes the
conversation and `text` is dropped; otherwise a truthy `text` becomes the
single-turn conversation; with neither, the `messages_missing` error is
returned without contacting the backend.  `app_id` and `enable_graph` are
popped from the payload. -/
def add_memory (default_user : String) (text : String)
    (messages : Option (List ToolMessage))
    (user_id agent_id app_id run_id : Option String)
    (metadata : Option JValue) : AddReply :=
  let msgs : Option (List ToolMessage) :=
    match messages with
    | some [] => none
    | some l => some l
    | none => none
  let uid : Option String :=
    if strOptTruthy user_id then user_id
    else if strOptTruthy agent_id || strOptTruthy run_id then none
    else some default_user
  let payload := addPayload uid agent_id run_id metadata
  match msgs with
  | some l => AddReply.call (convOfMessages l) payload
  | none =>
    if text = "" then AddReply.reject messages_missing_body
    else
      AddReply.call
        (JValue.arr [JValue.obj [("role", JValue.str "user"), ("content", JValue.str text)]])
        payload

/-- `page or 1` for the optional page number (a falsy page, `None` or `0`,
becomes `1`). -/
def pyOrOne : Option Int → Int
  | none => 1
  | some k => if k = 0 then 1 else k

/-- Fetch limit computed by `get_memories` (server.py:384-391): a fixed `100`
when `page_size` is absent, otherwise `max(page or 1, 1) * page_size`. -/
def fetchLimit (page page_size : Option Int) : Int :=
  match page_size with
  | none => 100
  | some n => max (pyOrOne page) 1 * n

/-- Pagination post-processing of `get_memories` (server.py:396-407), acting
on the parsed envelope: when the envelope is a mapping whose `results` field
is a list, replace it by `results[(page_num-1)*page_len : (page_num-1)*page_len + page_len]`
with `page_num = max(page, 1)` and `page_len = max(page_size, 1)`; any other
shape is returned unchanged (the `except` path keeps the original response). -/
def sliceResults (page page_size : Int) (v : JValue) : JValue :=
  match v with
  | JValue.obj fs =>
    match jget "results" fs with
    | some (JValue.arr rs) =>
      let page_num := max page 1
      let page_len := max page_size 1
      let start := ((page_num - 1) * page_len).toNat
      JValue.obj (setKey fs "results" (JValue.arr ((rs.drop start).take page_len.toNat)))
    | _ => v
  | _ => v

/-- Outcome of `get_memories`: the payload sent to the backend's `get_all`,
the final envelope value, and its serialization (the string the tool
returns). -/
structure GetReply where
  payload : List (String × JValue)
  responseVal : JValue
  response : String

/-- `get_memories` (server.py:345-408).  The payload carries the filters (when
present), the resolved `user_id` and the computed `limit`; the envelope from
`_mem0_call` is post-processed by `sliceResults` only when both `page` and
`page_size` were supplied truthy (non-zero). -/
def get_memories (default_user : String) (filters : Option (List (String × JValue)))
    (page page_size : Option Int) (backend : Int → Except MemErr JValue) : GetReply :=
  let resolved := extract_user_id filters default_user
  let lim := fetchLimit page page_size
  let payload :=
    (match filters with
     | some f => [("filters", JValue.obj f)]
     | none => []) ++ [("user_id", JValue.str resolved), ("limit", JValue.int lim)]
  let envelope := normalizeEnvelope (backend lim)
  let final :=
    if intOptTruthy page && intOptTruthy page_size then
      sliceResults (page.getD 1) (page_size.getD 1) envelope
    else envelope
  ⟨payload, final, jdump final⟩

/-- Backend stub for the pagination property: returns the 30 items
`0..29` regardless of the requested limit. -/
def stubBackend : Int → Except MemErr JValue :=
  fun _ => Except.ok (JValue.arr ((List.range 30).map fun i => JValue.int i))

/-- C1 (counterexample): the leaf value `""` is a scalar whose extracted
string form is `""`, and the filter expression with exactly that one
`user_id` leaf makes `extract_user_id` return the default owner instead of
the extracted scalar — the claim as stated fails on empty-string leaves. -/
theorem extract_user_id_empty_scalar_counterexample :
    extract_id_value (JValue.str "") = some ""
    ∧ allMatches [JValue.obj [("user_id", JValue.str "")]] = [some ""]
    ∧ extract_user_id (some [("user_id", JValue.str "")]) "default-owner" = "default-owner"
    ∧ "default-owner" ≠ "" := by
  refine ⟨rfl, ?_, ?_, by decide⟩
  · simp [allMatches, jget, extract_id_value, scalarStr]
  · simp [extract_user_id, bfs, jget, extract_id_value, scalarStr]

/-- C1 (amended): for a filter expression whose traversal meets exactly one
`user_id` leaf, `extract_user_id` returns that leaf's extracted scalar
provided the scalar is non-empty (a leaf extracting the empty string is
skipped); with no `user_id` leaf, or empty or absent filters, the default
owner is returned unchanged.  The extraction forms are: a scalar by its
string form, an `eq` mapping by its scalar's string form, an `in` mapping by
the string form of the first element of its list. -/
theorem extract_user_id_unique_leaf :
    (∀ fs s d, allMatches [JValue.obj fs] = [some s] → s ≠ "" →
      extract_user_id (some fs) d = s)
    ∧ (∀ fs d, allMatches [JValue.obj fs] = [] → extract_user_id (some fs) d = d)
    ∧ (∀ d, extract_user_id none d = d)
    ∧ (∀ d, extract_user_id (some []) d = d)
    ∧ (∀ s, extract_id_value (JValue.str s) = some s)
    ∧ (∀ n, extract_id_value (JValue.int n) = some (toString n))
    ∧ (∀ fs v s, jget "eq" fs = some v → scalarStr v = some s →
        extract_id_value (JValue.obj fs) = some s)
    ∧ (∀ fs first rest s, (jget "eq" fs).bind scalarStr = none →
        jget "in" fs = some (JValue.arr (first :: rest)) → scalarStr first = some s →
        extract_id_value (JValue.obj fs) = some s) := by
  refine ⟨?_, ?_, fun d => rfl, fun d => rfl, fun s => rfl, fun n => rfl, ?_, ?_⟩
  · intro fs s d h hs
    apply extract_user_id_of_goods_single
    rw [h]
    simp [goods, hs]
  · intro fs d h
    apply extract_user_id_of_goods_nil
    rw [h]
    rfl
  · intro fs v s h1 h2
    simp only [extract_id_value]
    simp only [show scalarStr (JValue.obj fs) = none from rfl, h1, Option.some_bind, h2]
  · intro fs first rest s h1 h2 h3
    simp only [extract_id_value]
    simp only [show scalarStr (JValue.obj fs) = none from rfl, h1, h2]
    exact h3

/-- C1 (witness): the spec's own example
`extract_owner (a dict with a single user_id in-leaf [a, b]) default = a`. -/
theorem extract_user_id_unique_leaf_witness :
    extract_user_id
      (some [("user_id", JValue.obj [("in", JValue.arr [JValue.str "a", JValue.str "b"])])])
      "default" = "a" :=
  extract_user_id_unique_leaf.1 _ "a" "default"
    (by simp [allMatches, jget, extract_id_value, scalarStr])
    (by decide)

/-- C10: a `user_id` leaf whose extracted value is the empty string is
treated as no match: the traversal continues past it, and the default owner
is returned when no other leaf extracts a non-empty string, while a later
leaf with a truthy extraction is still found. -/
theorem extract_user_id_empty_leaf_skipped :
    (∀ fs d, some "" ∈ allMatches [JValue.obj fs] →
      goods (allMatches [JValue.obj fs]) = [] → extract_user_id (some fs) d = d)
    ∧ (∀ fs d s, some "" ∈ allMatches [JValue.obj fs] →
      goods (allMatches [JValue.obj fs]) = [s] → extract_user_id (some fs) d = s) := by
  constructor
  · intro fs d _ h
    exact extract_user_id_of_goods_nil fs d h
  · intro fs d s _ h
    exact extract_user_id_of_goods_single fs d s h

/-- C10 (witness): a filter with an empty-string `user_id` leaf followed by a
non-empty one: traversal skips the empty leaf and returns the later value. -/
theorem extract_user_id_empty_leaf_skipped_witness :
    extract_user_id
      (some [("a", JValue.obj [("user_id", JValue.str "")]),
             ("b", JValue.obj [("user_id", JValue.str "x")])])
      "dflt" = "x" :=
  extract_user_id_empty_leaf_skipped.2 _ "dflt" "x"
    (by simp [allMatches, jget, extract_id_value, scalarStr])
    (by simp [allMatches, jget, extract_id_value, scalarStr, goods])

/-- C3: `_mem0_call` wraps a list result as an object with field `results`,
passes a mapping result through unchanged, and serializes with non-ASCII
characters kept literal (every printable non-quote, non-backslash character
is emitted as itself); on a backend-signaled error it does not raise and
returns the serialization of the error/status/payload envelope instead,
with absent attributes as `null`.  The concrete cases are the repository's
own test expectations and the spec's error example. -/
theorem mem0_call_contract :
    (∀ xs, mem0_call (Except.ok (JValue.arr xs))
      = jdump (JValue.obj [("results", JValue.arr xs)]))
    ∧ (∀ fs, mem0_call (Except.ok (JValue.obj fs)) = jdump (JValue.obj fs))
    ∧ (∀ m st pl, mem0_call (Except.error ⟨m, st, pl⟩)
      = jdump (JValue.obj [("error", JValue.str m), ("status", optJ st), ("payload", optJ pl)]))
    ∧ (∀ c : Char, 32 ≤ c.toNat → c ≠ '"' → c ≠ '\\' → escapeChar c = String.singleton c)
    ∧ mem0_call (Except.ok (JValue.arr [JValue.obj [("id", JValue.str "1"), ("memory", JValue.str "hello")]]))
      = "\x7b\"results\": [\x7b\"id\": \"1\", \"memory\": \"hello\"\x7d]\x7d"
    ∧ mem0_call (Except.error ⟨"X", some (JValue.int 404), none⟩)
      = "\x7b\"error\": \"X\", \"status\": 404, \"payload\": null\x7d" := by
  refine ⟨fun xs => rfl, fun fs => rfl, fun m st pl => rfl, ?_, ?_, ?_⟩
  · intro c h1 h2 h3
    have h4 : ¬ c = '\n' := by rintro rfl; revert h1; decide
    have h5 : ¬ c = '\t' := by rintro rfl; revert h1; decide
    have h6 : ¬ c = '\r' := by rintro rfl; revert h1; decide
    have h7 : ¬ c.toNat = 8 := by omega
    have h8 : ¬ c.toNat = 12 := by omega
    have h9 : ¬ c.toNat < 32 := by omega
    simp [escapeChar, h2, h3, h4, h5, h6, h7, h8, h9]
  · simp only [mem0_call, normalizeEnvelope, wrapResult, jdump, jdumpL, jdumpF]
    decide
  · simp only [mem0_call, normalizeEnvelope, errEnvelope, optJ, jdump, jdumpL, jdumpF]
    decide

/-- C3 (witness): a non-ASCII character is emitted literally. -/
theorem mem0_call_contract_witness :
    escapeChar 'é' = String.singleton 'é' :=
  mem0_call_contract.2.2.2.1 'é' (by decide) (by decide) (by decide)

/-- C8: `delete_entities` with no scope argument supplied returns the
`scope_missing` structured error envelope and never contacts the backend. -/
theorem delete_entities_scope_missing :
    delete_entities none none none none = ToolReply.reject scope_missing_body
    ∧ isCall (delete_entities none none none none) = false := by
  exact ⟨rfl, rfl⟩

/-- C9: the payload `delete_all_memories` forwards to the backend always
contains `user_id` — the caller-supplied value when non-empty, otherwise the
resolved default owner — regardless of `agent_id`, `app_id` or `run_id`. -/
theorem delete_all_memories_user_scope :
    ∀ d u ag ap r,
      isCall (delete_all_memories d u ag ap r) = true
      ∧ replyPayloadKey (delete_all_memories d u ag ap r) "user_id"
        = some (JValue.str (match u with
            | some s => if s = "" then d else s
            | none => d)) := by
  intro d u ag ap r
  refine ⟨rfl, ?_⟩
  cases u with
  | none => simp [delete_all_memories, replyPayloadKey, strOptTruthy, elideStr, jget]
  | some s =>
    by_cases h : s = "" <;>
      simp [delete_all_memories, replyPayloadKey, strOptTruthy, elideStr, jget, h]

/-- C4 (counterexample): `delete_all_memories` called with `app_id` set is not
rejected — the backend is contacted (with `app_id` silently dropped), refuting
the claim that every deletion operation rejects `app_id` without backend
contact. -/
theorem delete_all_memories_app_id_counterexample :
    delete_all_memories "mem0-mcp" none none (some "app-1") none
      = ToolReply.call [("user_id", JValue.str "mem0-mcp")]
    ∧ isCall (delete_all_memories "mem0-mcp" none none (some "app-1") none) = true := by
  exact ⟨rfl, rfl⟩

/-- C4 (amended): `delete_entities` with `app_id` set is always rejected with
a structured error and no backend contact — `unsupported_scope` whenever
`app_id` is non-empty (an empty-string `app_id` with no other truthy scope
falls under `scope_missing`) — while `delete_all_memories` does not reject
`app_id`: it always contacts the backend and merely omits `app_id` from the
forwarded payload. -/
theorem deletion_app_id_handling :
    (∀ u ag a r, isReject (delete_entities u ag (some a) r) = true)
    ∧ (∀ u ag a r, a ≠ "" →
        delete_entities u ag (some a) r = ToolReply.reject unsupported_scope_body)
    ∧ (∀ d u ag a r, isCall (delete_all_memories d u ag (some a) r) = true)
    ∧ (∀ d u ag a r, replyPayloadKey (delete_all_memories d u ag (some a) r) "app_id" = none) := by
  refine ⟨?_, ?_, fun d u ag a r => rfl, ?_⟩
  · intro u ag a r
    rcases Bool.eq_false_or_eq_true
        (!(strOptTruthy u || strOptTruthy ag || strOptTruthy (some a) || strOptTruthy r))
      with hb | hb <;> simp [delete_entities, hb, isReject]
  · intro u ag a r h
    have ht : strOptTruthy (some a) = true := by simp [strOptTruthy, h]
    simp [delete_entities, ht]
  · intro d u ag a r
    cases ag <;> cases r <;>
      simp [delete_all_memories, replyPayloadKey, elideStr, jget]

/-- C4 (witness): `delete_entities` with a non-empty `app_id` is rejected with
the `unsupported_scope` envelope. -/
theorem deletion_app_id_handling_witness :
    delete_entities none none (some "app-1") none = ToolReply.reject unsupported_scope_body :=
  deletion_app_id_handling.2.1 none none "app-1" none (by decide)

/-- C5: the backend fetch of `get_memories` is issued with `limit = 100` when
`page_size` is absent, and with `limit = max(page or 1, 1) * page_size` when
`page_size` is present. -/
theorem get_memories_fetch_limit :
    (∀ d f p bk, jget "limit" (get_memories d f p none bk).payload
      = some (JValue.int 100))
    ∧ (∀ d f p n bk, jget "limit" (get_memories d f p (some n) bk).payload
      = some (JValue.int (max (pyOrOne p) 1 * n))) := by
  constructor
  · intro d f p bk
    cases f <;> simp [get_memories, fetchLimit, jget]
  · intro d f p n bk
    cases f <;> simp [get_memories, fetchLimit, jget]

/-- C2 (counterexample): with `page = 0` explicitly supplied (a falsy page),
the slicing step is skipped entirely: against the stub returning items
`0..29`, the returned envelope keeps all 30 results, whereas the claimed
slice `[(max(0,1)-1)*10 : ... + 10]` has only 10 elements. -/
theorem get_memories_page_zero_counterexample :
    (get_memories "u" none (some 0) (some 10) stubBackend).responseVal
      = JValue.obj [("results", JValue.arr ((List.range 30).map fun i => JValue.int i))]
    ∧ ((List.range 30).map fun i => JValue.int i).length = 30
    ∧ (((List.range 30).map fun i => JValue.int i).take 10).length = 10 := by
  exact ⟨rfl, by decide, by decide⟩

/-- C2 (amended): when `page` and `page_size` are both supplied with
`page ≠ 0` and `page_size ≥ 1` and the normalized envelope's `results` field
is a list, `get_memories` replaces it with the slice
`[(max(page,1)-1)*page_size : (max(page,1)-1)*page_size + page_size]`; a
window starting at or past the end yields the empty list, never an error; in
particular, against the stub returning items `0..29`, `page=3, page_size=10`
yields items `20..29` and `page=5, page_size=10` yields `[]`. -/
theorem get_memories_slice_window :
    (∀ d f p n bk fs rs, p ≠ 0 → 1 ≤ n →
      normalizeEnvelope (bk (fetchLimit (some p) (some n))) = JValue.obj fs →
      jget "results" fs = some (JValue.arr rs) →
      (get_memories d f (some p) (some n) bk).responseVal
        = JValue.obj (setKey fs "results"
            (JValue.arr ((rs.drop ((max p 1 - 1) * n).toNat).take n.toNat))))
    ∧ (∀ (rs : List JValue) (p n : Int), p ≠ 0 → 1 ≤ n →
        rs.length ≤ ((max p 1 - 1) * n).toNat →
        (rs.drop ((max p 1 - 1) * n).toNat).take n.toNat = [])
    ∧ (get_memories "u" none (some 3) (some 10) stubBackend).responseVal
        = JValue.obj [("results", JValue.arr ((List.range' 20 10).map fun i => JValue.int i))]
    ∧ (get_memories "u" none (some 5) (some 10) stubBackend).responseVal
        = JValue.obj [("results", JValue.arr [])] := by
  refine ⟨?_, ?_, rfl, rfl⟩
  · intro d f p n bk fs rs hp hn he hr
    have hpt : intOptTruthy (some p) = true := by simp [intOptTruthy, hp]
    have hnt : intOptTruthy (some n) = true := by simp [intOptTruthy]; omega
    have hmax : max n 1 = n := by omega
    simp [get_memories, hpt, hnt, he, sliceResults, hr, hmax]
  · intro rs p n _ _ hlen
    rw [List.drop_eq_nil_of_le hlen]
    simp

/-- C2 (witness): the general slice property applied to the stub at
`page=3, page_size=10`. -/
theorem get_memories_slice_window_witness :
    (get_memories "u" none (some 3) (some 10) stubBackend).responseVal
      = JValue.obj (setKey [("results", JValue.arr ((List.range 30).map fun i => JValue.int i))]
          "results"
          (JValue.arr ((((List.range 30).map fun i => JValue.int i).drop
              ((max (3:Int) 1 - 1) * 10).toNat).take (10:Int).toNat))) :=
  get_memories_slice_window.1 "u" none 3 10 stubBackend
    [("results", JValue.arr ((List.range 30).map fun i => JValue.int i))]
    ((List.range 30).map fun i => JValue.int i)
    (by decide) (by decide) rfl rfl

theorem addPayload_no_text : ∀ uid ag r md, jget "text" (addPayload uid ag r md) = none := by
  intro uid ag r md
  cases uid <;> cases ag <;> cases r <;> cases md <;> simp [addPayload, elideStr, jget]

theorem addPayload_user_none : ∀ ag r md, jget "user_id" (addPayload none ag r md) = none := by
  intro ag r md
  cases ag <;> cases r <;> cases md <;> simp [addPayload, elideStr, jget]

/-- C6: a non-empty `messages` list takes precedence — it becomes the
conversation forwarded to the backend and `text` is dropped (the result does
not depend on `text`, and the payload never carries a `text` key); otherwise
a non-empty `text` becomes the single-turn conversation
`[role: user, content: text]`; in particular `add_memory` with only
`text="buy milk"` forwards exactly that single-turn conversation. -/
theorem add_memory_conversation :
    (∀ d t t2 m ms u ag ap r md,
      add_memory d t (some (m :: ms)) u ag ap r md
        = add_memory d t2 (some (m :: ms)) u ag ap r md)
    ∧ (∀ d t m ms u ag ap r md,
      addConv (add_memory d t (some (m :: ms)) u ag ap r md)
        = some (convOfMessages (m :: ms)))
    ∧ (∀ d t u ag ap r md, t ≠ "" →
      addConv (add_memory d t none u ag ap r md)
        = some (JValue.arr [JValue.obj [("role", JValue.str "user"), ("content", JValue.str t)]]))
    ∧ (∀ d t u ag ap r md, t ≠ "" →
      addConv (add_memory d t (some []) u ag ap r md)
        = some (JValue.arr [JValue.obj [("role", JValue.str "user"), ("content", JValue.str t)]]))
    ∧ (∀ d t msgs u ag ap r md,
      addReplyKey (add_memory d t msgs u ag ap r md) "text" = none)
    ∧ add_memory "mem0-mcp" "buy milk" none none none none none none
        = AddReply.call
            (JValue.arr [JValue.obj [("role", JValue.str "user"), ("content", JValue.str "buy milk")]])
            [("user_id", JValue.str "mem0-mcp")] := by
  refine ⟨fun d t t2 m ms u ag ap r md => rfl, fun d t m ms u ag ap r md => rfl,
    ?_, ?_, ?_, rfl⟩
  · intro d t u ag ap r md h
    simp [add_memory, addConv, h]
  · intro d t u ag ap r md h
    simp [add_memory, addConv, h]
  · intro d t msgs u ag ap r md
    match msgs with
    | none =>
      by_cases h : t = "" <;> simp [add_memory, addReplyKey, addPayload_no_text, h]
    | some [] =>
      by_cases h : t = "" <;> simp [add_memory, addReplyKey, addPayload_no_text, h]
    | some (m :: ms) =>
      simp [add_memory, addReplyKey, addPayload_no_text]

/-- C6 (witness): a non-empty text with no messages becomes the single-turn
conversation. -/
theorem add_memory_conversation_witness :
    addConv (add_memory "srv-user" "buy milk" none none none none none none)
      = some (JValue.arr [JValue.obj [("role", JValue.str "user"), ("content", JValue.str "buy milk")]]) :=
  add_memory_conversation.2.2.1 "srv-user" "buy milk" none none none none none (by decide)

/-- C7 (counterexample): `agent_id` supplied as the empty string is "supplied"
but falsy, so `add_memory` still defaults `user_id` to the resolved owner —
the payload carries both the defaulted `user_id` and the supplied
`agent_id`, refuting the claim that any supplied `agent_id` suppresses the
user default. -/
theorem add_memory_empty_agent_counterexample :
    addReplyKey (add_memory "mem0-mcp" "note" none none (some "") none none none) "user_id"
      = some (JValue.str "mem0-mcp")
    ∧ addReplyKey (add_memory "mem0-mcp" "note" none none (some "") none none none) "agent_id"
      = some (JValue.str "") := by
  exact ⟨rfl, rfl⟩

/-- C7 (amended): with no explicit `user_id`, the backend payload's `user_id`
is the resolved default owner exactly when neither `agent_id` nor `run_id` is
supplied truthy (non-empty); a truthy `agent_id` or `run_id` makes the
payload omit `user_id`. -/
theorem add_memory_user_default :
    (∀ d t msgs ag ap r md,
      strOptTruthy ag = false → strOptTruthy r = false →
      addIsCall (add_memory d t msgs none ag ap r md) = true →
      addReplyKey (add_memory d t msgs none ag ap r md) "user_id" = some (JValue.str d))
    ∧ (∀ d t msgs ag ap r md,
      (strOptTruthy ag || strOptTruthy r) = true →
      addReplyKey (add_memory d t msgs none ag ap r md) "user_id" = none) := by
  constructor
  · intro d t msgs ag ap r md hag hr hcall
    match msgs with
    | none =>
      by_cases h : t = ""
      · simp [add_memory, addIsCall, h] at hcall
      · simp [add_memory, addReplyKey, addPayload, elideStr, jget, hag, hr, h]
    | some [] =>
      by_cases h : t = ""
      · simp [add_memory, addIsCall, h] at hcall
      · simp [add_memory, addReplyKey, addPayload, elideStr, jget, hag, hr, h]
    | some (m :: ms) =>
      simp [add_memory, addReplyKey, addPayload, elideStr, jget, hag, hr]
  · intro d t msgs ag ap r md h
    match msgs with
    | none =>
      by_cases ht : t = "" <;>
        simp [add_memory, addReplyKey, addPayload_user_none, h, ht]
    | some [] =>
      by_cases ht : t = "" <;>
        simp [add_memory, addReplyKey, addPayload_user_none, h, ht]
    | some (m :: ms) =>
      simp [add_memory, addReplyKey, addPayload_user_none, h]

/-- C7 (witness): with no scope supplied at all, the payload's `user_id` is
the resolved default owner. -/
theorem add_memory_user_default_witness :
    addReplyKey (add_memory "mem0-mcp" "note" none none none none none none) "user_id"
      = some (JValue.str "mem0-mcp") :=
  add_memory_user_default.1 "mem0-mcp" "note" none none none none none rfl rfl rfl
